import Mathlib

/-!
Verification of the HTTP gateway of `mcp-obsidian`
(`src/mcp_obsidian/http_server.py`).

The development shallowly embeds the dispatch core of the FastAPI server:
the tool registry, the result normalizer shared by the REST surface
(`POST /tools/call`) and the JSON-RPC surface (`POST /sse`), the JSON-RPC
method dispatch, the fallback `{name, arguments}` path, and the SSE
event-stream generator of `GET /sse`.

Conventions of the embedding:
* Python JSON values are the inductive `Json` below; JSON numbers are
  modelled as integers (the modelled fragment of `json.loads` covers
  integer numerals; floating-point literals are outside it).
* A Python exception with text `m` is `Except.error m`; the catch-all
  `except Exception` blocks of the server are the points where an
  `Except.error` is converted into an HTTP 500 response.
* Tool handlers are external collaborators (the `tools` module is not part
  of the verified source): a handler is a record of its descriptor fields
  together with its `run_tool` behaviour, and theorems quantify over it.
-/

/-- A JSON value as produced by Python's `json` module on the modelled
fragment (numbers restricted to integers). `obj` keeps key order, matching
Python's insertion-ordered `dict`. -/
inductive Json where
  | null
  | bool (b : Bool)
  | num (n : Int)
  | str (s : String)
  | arr (elems : List Json)
  | obj (fields : List (String × Json))
deriving Repr

/-- `d.get k` / `k in d` on a Python dict represented as an ordered
association list: the first binding of `k`, if any. -/
def jget : List (String × Json) → String → Option Json
  | [], _ => none
  | (k, v) :: rest, key => if k = key then some v else jget rest key

/-- Field access on a `Json` value that is known to be an object;
`none` when the value is not an object or lacks the field. -/
def jgetJson : Json → String → Option Json
  | .obj kvs, key => jget kvs key
  | _, _ => none

/-! ## A model of Python `json.loads` (integer fragment)

Recursive-descent parser with explicit fuel.  It accepts the JSON dialect
Python's `json.loads` accepts, restricted to integer numerals: `true`,
`false`, `null`, double-quoted strings with the standard escapes
(including `\uXXXX`, basic plane), integers without leading zeros, arrays
and objects, with insignificant whitespace; trailing input is rejected.
Strings containing raw control characters are rejected (`strict=True`).
Floating-point numerals are outside the modelled fragment and are
rejected here (no claim below exercises them). -/

def jsonWs (c : Char) : Bool :=
  c = ' ' || c = '\t' || c = '\n' || c = '\r'

def skipWs : List Char → List Char
  | [] => []
  | c :: cs => if jsonWs c then skipWs cs else c :: cs

def hexVal (c : Char) : Option Nat :=
  if '0' ≤ c ∧ c ≤ '9' then some (c.toNat - '0'.toNat)
  else if 'a' ≤ c ∧ c ≤ 'f' then some (c.toNat - 'a'.toNat + 10)
  else if 'A' ≤ c ∧ c ≤ 'F' then some (c.toNat - 'A'.toNat + 10)
  else none

/-- Body of a JSON string after the opening quote: returns the decoded
characters and the input after the closing quote. -/
def parseStrBody : List Char → Option (List Char × List Char)
  | [] => none
  | '"' :: rest => some ([], rest)
  | '\\' :: e :: rest =>
    match e with
    | '"' => (parseStrBody rest).map (fun (s, r) => ('"' :: s, r))
    | '\\' => (parseStrBody rest).map (fun (s, r) => ('\\' :: s, r))
    | '/' => (parseStrBody rest).map (fun (s, r) => ('/' :: s, r))
    | 'b' => (parseStrBody rest).map (fun (s, r) => ('\x08' :: s, r))
    | 'f' => (parseStrBody rest).map (fun (s, r) => ('\x0c' :: s, r))
    | 'n' => (parseStrBody rest).map (fun (s, r) => ('\n' :: s, r))
    | 'r' => (parseStrBody rest).map (fun (s, r) => ('\r' :: s, r))
    | 't' => (parseStrBody rest).map (fun (s, r) => ('\t' :: s, r))
    | 'u' =>
      match rest with
      | a :: b :: c :: d :: rest' =>
        match hexVal a, hexVal b, hexVal c, hexVal d with
        | some x, some y, some z, some w =>
          (parseStrBody rest').map
            (fun (s, r) => (Char.ofNat (((x * 16 + y) * 16 + z) * 16 + w) :: s, r))
        | _, _, _, _ => none
      | _ => none
    | _ => none
  | c :: rest =>
    if c.toNat < 32 then none
    else (parseStrBody rest).map (fun (s, r) => (c :: s, r))

/-- One or more decimal digits, accumulating onto `acc`. -/
def parseDigits : List Char → Nat → Option (Nat × List Char)
  | [], _ => none
  | c :: cs, acc =>
    if '0' ≤ c ∧ c ≤ '9' then
      let acc' := acc * 10 + (c.toNat - '0'.toNat)
      match cs with
      | c' :: _ =>
        if '0' ≤ c' ∧ c' ≤ '9' then parseDigits cs acc'
        else some (acc', cs)
      | [] => some (acc', [])
    else none

/-- An unsigned JSON integer numeral: digits without a leading zero
(except `0` itself), not followed by `.`, `e` or `E` (floating-point
numerals are outside the modelled fragment). -/
def parseNat : List Char → Option (Nat × List Char) := fun cs =>
  match cs with
  | '0' :: c :: _ => if '0' ≤ c ∧ c ≤ '9' then none else some (0, cs.tail)
  | _ =>
    match parseDigits cs 0 with
    | some (n, rest) =>
      match rest with
      | '.' :: _ => none
      | 'e' :: _ => none
      | 'E' :: _ => none
      | _ => some (n, rest)
    | none => none

mutual

/-- A JSON value at the head of the input (fuelled). -/
def parseVal : Nat → List Char → Option (Json × List Char)
  | 0, _ => none
  | fuel + 1, cs =>
    match skipWs cs with
    | 't' :: 'r' :: 'u' :: 'e' :: rest => some (.bool true, rest)
    | 'f' :: 'a' :: 'l' :: 's' :: 'e' :: rest => some (.bool false, rest)
    | 'n' :: 'u' :: 'l' :: 'l' :: rest => some (.null, rest)
    | '"' :: rest =>
      (parseStrBody rest).map (fun (s, r) => (.str (String.mk s), r))
    | '[' :: rest =>
      (match skipWs rest with
       | ']' :: rest' => some (.arr [], rest')
       | _ => (parseArrTail fuel rest).map (fun (xs, r) => (.arr xs, r)))
    | '{' :: rest =>
      (match skipWs rest with
       | '}' :: rest' => some (.obj [], rest')
       | _ => (parseObjTail fuel rest).map (fun (kvs, r) => (.obj kvs, r)))
    | '-' :: rest =>
      (parseNat rest).map (fun (n, r) => (.num (-(n : Int)), r))
    | c :: rest =>
      if '0' ≤ c ∧ c ≤ '9' then
        (parseNat (c :: rest)).map (fun (n, r) => (.num (n : Int), r))
      else none
    | [] => none

/-- Elements of a non-empty array, up to and including `]`. -/
def parseArrTail : Nat → List Char → Option (List Json × List Char)
  | 0, _ => none
  | fuel + 1, cs =>
    match parseVal fuel cs with
    | none => none
    | some (v, rest) =>
      match skipWs rest with
      | ',' :: rest' =>
        (parseArrTail fuel rest').map (fun (xs, r) => (v :: xs, r))
      | ']' :: rest' => some ([v], rest')
      | _ => none

/-- Members of a non-empty object, up to and including `}`. -/
def parseObjTail : Nat → List Char → Option (List (String × Json) × List Char)
  | 0, _ => none
  | fuel + 1, cs =>
    match skipWs cs with
    | '"' :: rest =>
      match parseStrBody rest with
      | none => none
      | some (k, rest') =>
        match skipWs rest' with
        | ':' :: rest'' =>
          match parseVal fuel rest'' with
          | none => none
          | some (v, rest''') =>
            match skipWs rest''' with
            | ',' :: more =>
              (parseObjTail fuel more).map
                (fun (kvs, r) => ((String.mk k, v) :: kvs, r))
            | '}' :: more => some ([(String.mk k, v)], more)
            | _ => none
        | _ => none
    | _ => none

end

/-- Model of Python `json.loads` on the integer fragment: parse one value
and require the remainder to be whitespace. `none` models a raised
`json.JSONDecodeError`. -/
def json_loads (s : String) : Option Json :=
  match parseVal (2 * s.length + 4) s.data with
  | some (v, rest) => if skipWs rest = [] then some v else none
  | none => none

example : json_loads "\x7b\"a\":1\x7d" = some (.obj [("a", .num 1)]) := by rfl
example : json_loads "plain" = none := by rfl
example : json_loads "[\"x.md\", \"y.md\"]" =
    some (.arr [.str "x.md", .str "y.md"]) := by rfl
example : json_loads " -12 " = some (.num (-12)) := by rfl
example : json_loads "\"s\" x" = none := by rfl

/-! ## A model of Python `json.dumps`

Default separators (`", "` between members, `": "` after keys) and
`ensure_ascii=True` (characters outside printable ASCII become `\uXXXX`;
code points above the basic plane, which Python renders as surrogate
pairs, are outside the modelled fragment). -/

def hexDigit (n : Nat) : Char :=
  if n < 10 then Char.ofNat ('0'.toNat + n) else Char.ofNat ('a'.toNat + (n - 10))

def escChar (c : Char) : List Char :=
  if c = '"' then ['\\', '"']
  else if c = '\\' then ['\\', '\\']
  else if c = '\n' then ['\\', 'n']
  else if c = '\r' then ['\\', 'r']
  else if c = '\t' then ['\\', 't']
  else if c = '\x08' then ['\\', 'b']
  else if c = '\x0c' then ['\\', 'f']
  else if c.toNat < 32 ∨ c.toNat > 126 then
    ['\\', 'u', hexDigit (c.toNat / 4096 % 16), hexDigit (c.toNat / 256 % 16),
     hexDigit (c.toNat / 16 % 16), hexDigit (c.toNat % 16)]
  else [c]

def dumpsString (s : String) : String :=
  "\"" ++ String.mk (List.flatten (s.data.map escChar)) ++ "\""

mutual

def json_dumps : Json → String
  | .null => "null"
  | .bool true => "true"
  | .bool false => "false"
  | .num n => toString n
  | .str s => dumpsString s
  | .arr [] => "[]"
  | .arr (x :: xs) => "[" ++ json_dumps x ++ dumpsArrTail xs ++ "]"
  | .obj [] => "\x7b\x7d"
  | .obj ((k, v) :: kvs) =>
    "\x7b" ++ dumpsString k ++ ": " ++ json_dumps v ++ dumpsObjTail kvs ++ "\x7d"

def dumpsArrTail : List Json → String
  | [] => ""
  | x :: xs => ", " ++ json_dumps x ++ dumpsArrTail xs

def dumpsObjTail : List (String × Json) → String
  | [] => ""
  | (k, v) :: kvs => ", " ++ dumpsString k ++ ": " ++ json_dumps v ++ dumpsObjTail kvs

end

example : json_dumps (.obj [("a", .num 1)]) = "\x7b\"a\": 1\x7d" := by rfl
example : json_dumps (.arr [.str "x.md", .str "y.md"]) = "[\"x.md\", \"y.md\"]" := by rfl

/-! ## Python `str()` / `repr()` rendering of parsed JSON values

Used for the f-string interpolations in the server's error messages
(`f"Tool not found: {tool_name}"`, `f"Method not found: {method}"`,
`f"... Available tools: {list(tool_handlers.keys())}"`).  The modelled
`repr` of strings uses single quotes (the rendered tool names and methods
contain neither quotes nor escapes, so this covers the reachable cases). -/

mutual

def pyRepr : Json → String
  | .null => "None"
  | .bool true => "True"
  | .bool false => "False"
  | .num n => toString n
  | .str s => "'" ++ s ++ "'"
  | .arr [] => "[]"
  | .arr (x :: xs) => "[" ++ pyRepr x ++ pyReprArrTail xs ++ "]"
  | .obj [] => "\x7b\x7d"
  | .obj ((k, v) :: kvs) =>
    "\x7b'" ++ k ++ "': " ++ pyRepr v ++ pyReprObjTail kvs ++ "\x7d"

def pyReprArrTail : List Json → String
  | [] => ""
  | x :: xs => ", " ++ pyRepr x ++ pyReprArrTail xs

def pyReprObjTail : List (String × Json) → String
  | [] => ""
  | (k, v) :: kvs => ", '" ++ k ++ "': " ++ pyRepr v ++ pyReprObjTail kvs

end

/-- Python `str()` of a parsed JSON value: strings render without quotes,
everything else as its `repr`. -/
def pyStr : Json → String
  | .str s => s
  | v => pyRepr v

/-- Python `str()` of the result of `dict.get(key)`: `None` when absent. -/
def pyStrOpt : Option Json → String
  | none => "None"
  | some v => pyStr v

/-- Python `str(list_of_strings)`, as produced by
`f"{list(tool_handlers.keys())}"`: element reprs joined by `", "`. -/
def pyReprStrList (names : List String) : String :=
  "[" ++ String.intercalate ", " (names.map (fun n => "'" ++ n ++ "'")) ++ "]"

/-! ## Tool handlers and the registry (`tool_handlers`) -/

/-- One element of the sequence a tool handler returns.  `textItem`
models `TextContent` (it has a `text` attribute); `otherItem` models any
content object without a `text` attribute (e.g. `ImageContent`), carrying
its Python type name for serialization-error messages. -/
inductive ContentItem where
  | textItem (text : String)
  | otherItem (pyType : String)

/-- Python type name of a content item, as it appears in
`json.dumps` `TypeError` messages. -/
def ContentItem.typeName : ContentItem → String
  | .textItem _ => "TextContent"
  | .otherItem t => t

/-- A registered tool: its descriptor fields (from
`get_tool_description()`) and its `run_tool` behaviour.  `run_tool`
returning `Except.error m` models the handler raising an exception with
text `m`.  Handlers live in the external `tools` module; theorems
quantify over them. -/
structure ToolHandler where
  name : String
  description : String
  inputSchema : Json
  run_tool : Json → Except String (List ContentItem)

/-- The `tool_handlers` dict: an insertion-ordered map from tool name to
handler. -/
abbrev Registry := List (String × ToolHandler)

/-- `tool_handlers[name]` / `name in tool_handlers` for a string key:
the first binding of `name`, if any. -/
def lookupTool : Registry → String → Option ToolHandler
  | [], _ => none
  | (k, h) :: rest, n => if k = n then some h else lookupTool rest n

/-- `list(tool_handlers.keys())`. -/
def registryKeys (reg : Registry) : List String := reg.map (fun kv => kv.1)

/-- The JSON descriptor built for one handler by both listing endpoints
(`{"name": ..., "description": ..., "inputSchema": ...}`). -/
def tool_descriptor (h : ToolHandler) : Json :=
  .obj [("name", .str h.name), ("description", .str h.description),
        ("inputSchema", h.inputSchema)]

/-- The `tools_list` array built by `GET /tools/list` and by the JSON-RPC
`tools/list` method (identical loops over `tool_handlers.items()`). -/
def tools_list_json (reg : Registry) : Json :=
  .arr (reg.map (fun kv => tool_descriptor kv.2))

/-! ## The result normalizer

`http_server.py` repeats the same normalization twice: once in
`call_tool` (REST, lines 118-128) and once in the `tools/call` branch of
`sse_call_tool` (lines 229-237).  Both are translated separately below so
that their agreement is a theorem, not an assumption. -/

/-- The canonical result: `result_data` after normalization.  A parsed
JSON value and a fallback raw-text string are both `jsonVal` (Python
cannot distinguish a parsed JSON string from raw text either); the
pass-through of the raw handler sequence is `rawItems`. -/
inductive ResultData where
  | jsonVal (j : Json)
  | rawItems (items : List ContentItem)

/-- Lines 118-128 of `call_tool`: `if result and hasattr(result[0],
'text')`, then `json.loads` with fallback to the raw text, else the raw
sequence. -/
def normalize_rest (result : List ContentItem) : ResultData :=
  match result with
  | .textItem t :: _ =>
    match json_loads t with
    | some v => .jsonVal v
    | none => .jsonVal (.str t)
  | _ => .rawItems result

/-- Lines 229-237 of `sse_call_tool`: the same normalization, written a
second time in the source. -/
def normalize_sse (result : List ContentItem) : ResultData :=
  match result with
  | .textItem t :: _ =>
    match json_loads t with
    | some v => .jsonVal v
    | none => .jsonVal (.str t)
  | _ => .rawItems result

/-! ## JSON serialization of response payloads

Starlette's `JSONResponse` renders its `content` with `json.dumps` inside
the endpoint's `try` block, so a non-serializable payload raises there
and is caught by the endpoint's `except`.  A normalized `jsonVal` is
always serializable; the raw handler sequence is a Python list whose
elements (`TextContent` etc.) are not, so it serializes only when
empty. -/

/-- `json.dumps` applied to the raw handler sequence (a Python list of
content objects): the empty list renders as `[]`, a non-empty list raises
`TypeError`. -/
def render_raw : List ContentItem → Except String Json
  | [] => .ok (.arr [])
  | it :: _ =>
    .error ("Object of type " ++ it.typeName ++ " is not JSON serializable")

/-- Serializability of `result_data` as placed into a response body. -/
def render_result_data : ResultData → Except String Json
  | .jsonVal j => .ok j
  | .rawItems items => render_raw items

/-! ## REST surface: `POST /tools/call` -/

/-- Outcome of a FastAPI endpoint on the REST surface: a `JSONResponse`
(`ok`), or an `HTTPException` rendered as `{"detail": ...}` with its
status code (`httpError`). -/
inductive RestResponse where
  | ok (status : Nat) (content : Json)
  | httpError (status : Nat) (detail : String)

/-- `call_tool` (lines 92-140).  The Pydantic model `ToolCallRequest`
guarantees `name` is a string and `arguments` a mapping.  An unknown name
raises `HTTPException(404, ...)`, re-raised unchanged by the
`except HTTPException` clause; any other exception becomes
`HTTPException(500, str(e))`. -/
def call_tool (tool_handlers : Registry) (name : String) (arguments : Json) :
    RestResponse :=
  match lookupTool tool_handlers name with
  | none =>
    .httpError 404 ("Tool '" ++ name ++ "' not found. Available tools: " ++
      pyReprStrList (registryKeys tool_handlers))
  | some handler =>
    match handler.run_tool arguments with
    | .error e => .httpError 500 e
    | .ok result =>
      match render_result_data (normalize_rest result) with
      | .error e => .httpError 500 e
      | .ok j =>
        .ok 200 (.obj [("success", .bool true), ("tool", .str name),
                       ("result", j)])

/-! ## JSON-RPC surface: `POST /sse` -/

/-- JSON-RPC success envelope: `{"jsonrpc": "2.0", "id": rid, "result": r}`. -/
def rpc_ok (rid : Json) (result : Json) : Json :=
  .obj [("jsonrpc", .str "2.0"), ("id", rid), ("result", result)]

/-- JSON-RPC error envelope with an id:
`{"jsonrpc": "2.0", "id": rid, "error": {"code": c, "message": m}}`. -/
def rpc_err (rid : Json) (code : Int) (message : String) : Json :=
  .obj [("jsonrpc", .str "2.0"), ("id", rid),
        ("error", .obj [("code", .num code), ("message", .str message)])]

/-- The static `initialize` result payload (lines 252-267). -/
def initialize_result : Json :=
  .obj [("protocolVersion", .str "2024-11-05"),
        ("capabilities", .obj [("tools", .obj [])]),
        ("serverInfo", .obj [("name", .str "mcp-obsidian"),
                             ("version", .str "0.2.1")])]

/-- `tool_name not in tool_handlers` where `tool_name` is
`params.get("name")`, per Python dict-membership semantics: a string key
is looked up; `None`, numbers and booleans are hashable but are never
keys of `tool_handlers` (whose keys are all strings), so they are simply
absent; an unhashable key (a parsed JSON array or object, i.e. a Python
`list`/`dict`) makes the `in` operator itself raise `TypeError`. -/
def memberCheck (reg : Registry) : Option Json → Except String (Option ToolHandler)
  | some (.str n) => .ok (lookupTool reg n)
  | some (.arr _) => .error "unhashable type: 'list'"
  | some (.obj _) => .error "unhashable type: 'dict'"
  | _ => .ok none

/-- The `"text"` value of the single content item built for a successful
JSON-RPC `tools/call` (line 246):
`json.dumps(result_data) if isinstance(result_data, (dict, list)) else
result_data`.  Parsed objects and arrays are JSON-encoded into a string;
parsed strings, numbers, booleans and `null` are placed directly; the raw
handler sequence is a Python `list`, so it is JSON-encoded too — which
raises `TypeError` unless it is empty. -/
def sse_text_field : ResultData → Except String Json
  | .jsonVal (.obj kvs) => .ok (.str (json_dumps (.obj kvs)))
  | .jsonVal (.arr xs) => .ok (.str (json_dumps (.arr xs)))
  | .jsonVal j => .ok j
  | .rawItems [] => .ok (.str "[]")
  | .rawItems (it :: _) =>
    .error ("Object of type " ++ it.typeName ++ " is not JSON serializable")

/-- Python type name of a parsed JSON value (for exception texts). -/
def pyTypeName : Json → String
  | .null => "NoneType"
  | .bool _ => "bool"
  | .num _ => "int"
  | .str _ => "str"
  | .arr _ => "list"
  | .obj _ => "dict"

/-- A parsed request body that is not a dict always ends in an uncaught
`TypeError`/`AttributeError` inside `sse_call_tool` (the `in` test or the
`.get` calls fail on non-mappings), hence in an HTTP 500.  The exact text
varies with the value (e.g. an array containing the string `"jsonrpc"`
fails at the indexing instead); this model uses the text of the common
case per type — no claim depends on these texts. -/
def nonDictBodyError (b : Json) : String :=
  match b with
  | .arr _ => "'list' object has no attribute 'get'"
  | .str _ => "'str' object has no attribute 'get'"
  | b => "argument of type '" ++ pyTypeName b ++ "' is not iterable"

/-- Python `v == "lit"` for a parsed JSON value `v` and a string literal:
true exactly when `v` is that string (equality across types is `False`). -/
def strEq (v : Json) (lit : String) : Bool :=
  match v with
  | .str s => s = lit
  | _ => false

/-- The JSON-RPC 2.0 branch of `sse_call_tool` (lines 187-280), applied
to the fields of the parsed body after the guard
`"jsonrpc" in body and body["jsonrpc"] == "2.0"` has passed.
`Except.ok` is the `JSONResponse` content (all these responses carry
HTTP 200, the explicit `status_code=200` included); `Except.error` is an
exception that the endpoint's catch-all will turn into a 500. -/
def sse_rpc (reg : Registry) (kvs : List (String × Json)) : Except String Json :=
  let method := (jget kvs "method").getD (.str "")
  let params := (jget kvs "params").getD (.obj [])
  let request_id := (jget kvs "id").getD .null
  if strEq method "tools/list" then
    .ok (rpc_ok request_id (.obj [("tools", tools_list_json reg)]))
  else if strEq method "tools/call" then
    match params with
    | .obj ps =>
      let tool_name := jget ps "name"
      let arguments := (jget ps "arguments").getD (.obj [])
      match memberCheck reg tool_name with
      | .error e => .error e
      | .ok none =>
        .ok (rpc_err request_id (-32601)
          ("Tool not found: " ++ pyStrOpt tool_name))
      | .ok (some handler) =>
        match handler.run_tool arguments with
        | .error e => .error e
        | .ok result =>
          match sse_text_field (normalize_sse result) with
          | .error e => .error e
          | .ok t =>
            .ok (rpc_ok request_id
              (.obj [("content",
                .arr [.obj [("type", .str "text"), ("text", t)]])]))
    | p => .error ("'" ++ pyTypeName p ++ "' object has no attribute 'get'")
  else if strEq method "initialize" then
    .ok (rpc_ok request_id initialize_result)
  else
    .ok (rpc_err request_id (-32601) ("Method not found: " ++ pyStr method))

/-- The fallback `{name, arguments}` branch of `sse_call_tool`
(lines 282-292).  The unknown-tool `HTTPException(404, ...)` raised here
is caught by the endpoint's own `except Exception` (there is no separate
`except HTTPException` in this endpoint) and Starlette renders
`str(HTTPException)` as `f"{status_code}: {detail}"`; the raw handler
result is serialized by `JSONResponse` as-is, without normalization. -/
def sse_fallback (reg : Registry) (kvs : List (String × Json)) :
    Except String Json :=
  let tool_name := jget kvs "name"
  let arguments := (jget kvs "arguments").getD (.obj [])
  match memberCheck reg tool_name with
  | .error e => .error e
  | .ok none => .error ("404: Tool not found: " ++ pyStrOpt tool_name)
  | .ok (some handler) =>
    match handler.run_tool arguments with
    | .error e => .error e
    | .ok result =>
      match render_raw result with
      | .error e => .error e
      | .ok j => .ok (.obj [("success", .bool true), ("result", j)])

/-- The guard `"jsonrpc" in body and body["jsonrpc"] == "2.0"` on the
fields of a dict body. -/
def isRpc2 (kvs : List (String × Json)) : Bool :=
  match jget kvs "jsonrpc" with
  | some v => strEq v "2.0"
  | none => false

/-- Dispatch of `POST /sse` on a successfully parsed body. -/
def sse_dispatch (reg : Registry) (body : Json) : Except String Json :=
  match body with
  | .obj kvs => if isRpc2 kvs then sse_rpc reg kvs else sse_fallback reg kvs
  | b => .error (nonDictBodyError b)

/-- The whole `try` block of `sse_call_tool`: body parsing
(`await request.json()`, whose failure is `Except.error`) followed by
dispatch. -/
def sse_try (reg : Registry) (request_body : Except String Json) :
    Except String Json :=
  match request_body with
  | .error e => .error e
  | .ok b => sse_dispatch reg b

/-- An HTTP response of the `POST /sse` endpoint. -/
structure SseResponse where
  status : Nat
  content : Json

/-- `sse_call_tool` (lines 177-305): any uncaught exception becomes
HTTP 500 with a JSON-RPC `-32603` error envelope that carries no `id`
field (lines 294-305). -/
def sse_call_tool (reg : Registry) (request_body : Except String Json) :
    SseResponse :=
  match sse_try reg request_body with
  | .ok content => ⟨200, content⟩
  | .error e =>
    ⟨500, .obj [("jsonrpc", .str "2.0"),
                ("error", .obj [("code", .num (-32603)),
                                ("message", .str e)])]⟩

/-! ## SSE stream: `GET /sse` (lines 143-174)

The endpoint returns a `StreamingResponse` over `event_generator()`.  The
generator is modelled as a function from the observable behaviour of its
suspension points to the list of frames it yields.  Each loop iteration
either observes a live client and sleeps (`tick`, after which the
keep-alive comment is yielded), observes a disconnected client
(`disconnect`, after which the generator returns), or has one of its
awaited calls raise (`raises`).  An empty remaining trace means the
stream is still running and has produced no further frames yet. -/

/-- One frame of the `text/event-stream` body: a `data:` line carrying a
JSON payload, or a comment line (`: ...`) carrying no payload. -/
inductive SseFrame where
  | data (payload : Json)
  | comment (text : String)

/-- The initial handshake event
`data: {"type": "connection", "status": "connected"}`. -/
def connection_frame : SseFrame :=
  .data (.obj [("type", .str "connection"), ("status", .str "connected")])

/-- The keep-alive comment line `: keep-alive`. -/
def keepalive_frame : SseFrame := .comment " keep-alive"

/-- A terminal error event `data: {"type": "error", "message": ...}`. -/
def error_frame (msg : String) : SseFrame :=
  .data (.obj [("type", .str "error"), ("message", .str msg)])

/-- Observable outcome of one iteration of the `while True` loop. -/
inductive LoopStep where
  | tick
  | disconnect
  | raises (msg : String)

/-- The `while True` loop of `event_generator`: a `tick` yields one
keep-alive comment; a `disconnect` hits `break` (no further output); an
exception is caught by the surrounding `except`, which yields exactly one
error event and ends the generator. -/
def sse_loop : List LoopStep → List SseFrame
  | [] => []
  | .tick :: rest => keepalive_frame :: sse_loop rest
  | .disconnect :: _ => []
  | .raises m :: _ => [error_frame m]

set_option linter.unusedVariables false in
/-- `event_generator` of `sse_endpoint`: the connection event followed by
the loop's output.  The generator closes over no tool state; the
`tool_handlers` parameter records that the registry is in scope but
unused. -/
def event_generator (tool_handlers : Registry) (steps : List LoopStep) :
    List SseFrame :=
  connection_frame :: sse_loop steps

/-! ## Helper lemmas -/

lemma lookupTool_eq_none_iff (reg : Registry) (n : String) :
    lookupTool reg n = none ↔ n ∉ registryKeys reg := by
  induction reg with
  | nil => simp [lookupTool, registryKeys]
  | cons kv rest ih =>
    obtain ⟨k, h⟩ := kv
    by_cases hk : k = n
    · subst hk
      simp [lookupTool, registryKeys]
    · simp [lookupTool, registryKeys, hk, ih, Ne.symm hk]

lemma jget_rpc_ok_id (rid r : Json) : jgetJson (rpc_ok rid r) "id" = some rid := by
  rfl

lemma jget_rpc_err_id (rid : Json) (c : Int) (m : String) :
    jgetJson (rpc_err rid c m) "id" = some rid := by
  rfl

lemma sse_loop_ticks_then (n : Nat) (tail : List LoopStep) :
    sse_loop (List.replicate n .tick ++ tail) =
      List.replicate n keepalive_frame ++ sse_loop tail := by
  induction n with
  | zero => simp
  | succ k ih => simp [List.replicate_succ, sse_loop, ih]

/-! ## Claim C3 — the result normalizer -/

/-- C3: for every sequence returned by a tool handler, if it is non-empty
and its first element has a `text` field, the canonical result is the
JSON-parse of that text on success and the unmodified text string on
failure; an empty sequence, or one whose first element lacks a `text`
field, passes through as the raw sequence.  In particular, the text
`{"a":1}` normalizes to the object and the text `plain` to the string
`plain`. -/
theorem C3_normalizer :
    (∀ t rest v, json_loads t = some v →
      normalize_rest (ContentItem.textItem t :: rest) = .jsonVal v) ∧
    (∀ t rest, json_loads t = none →
      normalize_rest (ContentItem.textItem t :: rest) = .jsonVal (.str t)) ∧
    normalize_rest [] = .rawItems [] ∧
    (∀ ty rest, normalize_rest (ContentItem.otherItem ty :: rest) =
      .rawItems (ContentItem.otherItem ty :: rest)) ∧
    normalize_rest [ContentItem.textItem "\x7b\"a\":1\x7d"] =
      .jsonVal (.obj [("a", .num 1)]) ∧
    normalize_rest [ContentItem.textItem "plain"] = .jsonVal (.str "plain") := by
  refine ⟨?_, ?_, rfl, fun ty rest => rfl, rfl, rfl⟩
  · intro t rest v h
    simp [normalize_rest, h]
  · intro t rest h
    simp [normalize_rest, h]

/-- Witness for C3: the normalizer evaluated at concrete handler outputs
through the theorem. -/
theorem C3_normalizer_witness :
    normalize_rest [ContentItem.textItem "[1]"] = .jsonVal (.arr [.num 1]) ∧
    normalize_rest [ContentItem.textItem "oops"] = .jsonVal (.str "oops") :=
  ⟨C3_normalizer.1 "[1]" [] (.arr [.num 1]) rfl,
   C3_normalizer.2.1 "oops" [] rfl⟩

/-! ## Claim C2 — REST unknown tool -/

/-- C2: for every `POST /tools/call` whose name is not registered, the
response is the 404 `HTTPException` whose message lists every registered
tool name; no handler is invoked (the response depends only on the
registry's key set, not on any handler's behaviour). -/
theorem C2_rest_unknown_tool (reg : Registry) (name : String) (args : Json)
    (h : lookupTool reg name = none) :
    call_tool reg name args =
      .httpError 404 ("Tool '" ++ name ++ "' not found. Available tools: " ++
        pyReprStrList (registryKeys reg)) ∧
    ∀ reg' : Registry, registryKeys reg' = registryKeys reg →
      call_tool reg' name args = call_tool reg name args := by
  constructor
  · simp [call_tool, h]
  · intro reg' hkeys
    have h' : lookupTool reg' name = none := by
      rw [lookupTool_eq_none_iff, hkeys]
      exact (lookupTool_eq_none_iff reg name).mp h
    simp [call_tool, h, h', hkeys]

/-- A demo registry with one registered tool, used to instantiate
hypotheses of the theorems at concrete inputs. -/
def demo_vault_handler : ToolHandler :=
  ⟨"obsidian_list_files_in_vault", "Lists all files in the vault",
   .obj [("type", .str "object")],
   fun _ => .ok [.textItem "[\"a.md\", \"b.md\"]"]⟩

def demo_registry : Registry :=
  [("obsidian_list_files_in_vault", demo_vault_handler)]

/-- Witness for C2: a concrete unregistered name against the demo
registry. -/
theorem C2_rest_unknown_tool_witness :
    lookupTool demo_registry "nonexistent" = none ∧
    call_tool demo_registry "nonexistent" (.obj []) =
      .httpError 404 ("Tool '" ++ "nonexistent" ++
        "' not found. Available tools: " ++
        pyReprStrList (registryKeys demo_registry)) :=
  ⟨rfl, (C2_rest_unknown_tool demo_registry "nonexistent" (.obj []) rfl).1⟩

example :
    call_tool demo_registry "nonexistent" (.obj []) = .httpError 404
      "Tool 'nonexistent' not found. Available tools: ['obsidian_list_files_in_vault']" :=
  rfl

/-! ## Claim C9 — the `GET /sse` stream -/

/-- C9: every `GET /sse` stream first emits exactly the connection event;
once a disconnect check observes the client gone, no further output of
any kind is produced and no error event is emitted; an exception inside
the loop produces exactly one terminal error event; and the stream's
output is independent of the tool registry (no handler is ever invoked
from it). -/
theorem C9_sse_stream (reg reg' : Registry) (n : Nat) (rest : List LoopStep)
    (msg : String) :
    (∀ steps, (event_generator reg steps).head? = some connection_frame) ∧
    event_generator reg (List.replicate n .tick ++ .disconnect :: rest) =
      connection_frame :: List.replicate n keepalive_frame ∧
    event_generator reg (List.replicate n .tick ++ .raises msg :: rest) =
      connection_frame ::
        (List.replicate n keepalive_frame ++ [error_frame msg]) ∧
    (∀ steps, event_generator reg steps = event_generator reg' steps) := by
  refine ⟨fun steps => rfl, ?_, ?_, fun steps => rfl⟩
  · simp [event_generator, sse_loop_ticks_then, sse_loop]
  · simp [event_generator, sse_loop_ticks_then, sse_loop]

/-! ## Claim C7 — one normalizer for both surfaces -/

/-- Handler whose output is one text item holding a JSON object, for the
surface-comparison counterexample. -/
def c7_handler : ToolHandler :=
  ⟨"t", "demo", .obj [], fun _ => .ok [.textItem "\x7b\"a\": 1\x7d"]⟩

/-- Counterexample to C7 as stated: the fallback `{name, arguments}` path
of `POST /sse` invokes a handler but performs no normalization.  For the
same handler output `[TextContent(text='{"a": 1}')]`, the REST surface
responds with the canonical parsed object, while the fallback path
serializes the raw sequence and fails with HTTP 500 — the two
handler-invoking paths do not produce equal canonical results. -/
theorem C7_counterexample :
    call_tool [("t", c7_handler)] "t" (.obj []) =
      .ok 200 (.obj [("success", .bool true), ("tool", .str "t"),
                     ("result", .obj [("a", .num 1)])]) ∧
    sse_call_tool [("t", c7_handler)]
        (.ok (.obj [("name", .str "t"), ("arguments", .obj [])])) =
      ⟨500, .obj [("jsonrpc", .str "2.0"),
        ("error", .obj [("code", .num (-32603)),
          ("message",
           .str "Object of type TextContent is not JSON serializable")])]⟩ :=
  ⟨rfl, rfl⟩

/-- C7 amended: the normalization of `POST /tools/call` and the
normalization of the JSON-RPC `tools/call` branch of `POST /sse` are the
same function; the fallback `{name, arguments}` path of `POST /sse`
applies no normalization and serializes the raw handler sequence
directly. -/
theorem C7_same_normalizer :
    (∀ result, normalize_rest result = normalize_sse result) ∧
    (∀ (reg : Registry) (kvs : List (String × Json)) (handler : ToolHandler)
       (n : String) (result : List ContentItem),
      jget kvs "jsonrpc" = none →
      jget kvs "name" = some (.str n) →
      lookupTool reg n = some handler →
      handler.run_tool ((jget kvs "arguments").getD (.obj [])) = .ok result →
      sse_dispatch reg (.obj kvs) =
        match render_raw result with
        | .ok j => .ok (.obj [("success", .bool true), ("result", j)])
        | .error e => .error e) := by
  constructor
  · intro result
    rfl
  · intro reg kvs handler n result h1 h2 h3 h4
    simp [sse_dispatch, isRpc2, h1, sse_fallback, h2, memberCheck, h3, h4]
    cases render_raw result <;> rfl

/-- Handler returning the empty sequence, for C7's witness. -/
def c7_empty_handler : ToolHandler := ⟨"e", "demo", .obj [], fun _ => .ok []⟩

/-- Witness for C7 amended, at a concrete registry and body. -/
theorem C7_same_normalizer_witness :
    normalize_rest [ContentItem.textItem "plain"] =
      normalize_sse [ContentItem.textItem "plain"] ∧
    sse_dispatch [("e", c7_empty_handler)] (.obj [("name", .str "e")]) =
      .ok (.obj [("success", .bool true), ("result", .arr [])]) :=
  ⟨C7_same_normalizer.1 [ContentItem.textItem "plain"],
   C7_same_normalizer.2 [("e", c7_empty_handler)] [("name", .str "e")]
     c7_empty_handler "e" [] rfl rfl rfl rfl⟩

/-! ## Claim C1 — JSON-RPC unknown tool on `POST /sse` -/

/-- Counterexample to C1 as stated: a `tools/call` whose `params.name` is
a JSON array — which is not a registered tool name — does not get the
HTTP 200 `-32601` envelope: the Python membership test
`tool_name not in tool_handlers` raises `TypeError` on the unhashable
key, and the catch-all answers HTTP 500 with code `-32603`. -/
theorem C1_counterexample :
    sse_call_tool [] (.ok (.obj [("jsonrpc", .str "2.0"), ("id", .num 1),
        ("method", .str "tools/call"),
        ("params", .obj [("name", .arr []), ("arguments", .obj [])])])) =
      ⟨500, .obj [("jsonrpc", .str "2.0"),
        ("error", .obj [("code", .num (-32603)),
                        ("message", .str "unhashable type: 'list'")])]⟩ :=
  rfl

/-- C1 amended: for every JSON-RPC 2.0 `tools/call` whose `params.name`
is missing, or is a hashable value (string, number, boolean or null)
that is not a registered tool name, the response carries HTTP 200 with a
JSON-RPC error of code `-32601` whose message is
`Tool not found: <name>` (the Python rendering of the name, `None` when
missing), and the envelope has no `result` field.  (Array- or
object-valued names instead raise `TypeError`, answered as HTTP 500 with
`-32603`.) -/
theorem C1_rpc_unknown_tool (reg : Registry) (kvs ps : List (String × Json))
    (hrpc : isRpc2 kvs = true)
    (hm : (jget kvs "method").getD (.str "") = .str "tools/call")
    (hp : (jget kvs "params").getD (.obj []) = .obj ps)
    (hname : memberCheck reg (jget ps "name") = .ok none) :
    sse_call_tool reg (.ok (.obj kvs)) =
      ⟨200, rpc_err ((jget kvs "id").getD .null) (-32601)
        ("Tool not found: " ++ pyStrOpt (jget ps "name"))⟩ ∧
    jgetJson (rpc_err ((jget kvs "id").getD .null) (-32601)
        ("Tool not found: " ++ pyStrOpt (jget ps "name"))) "result" = none := by
  constructor
  · simp [sse_call_tool, sse_try, sse_dispatch, hrpc, sse_rpc, hm, hp, hname,
      strEq]
  · exact rfl

/-- Witness for C1 amended: the spec's own scenario
`{"jsonrpc":"2.0","id":1,"method":"tools/call",
"params":{"name":"nonexistent","arguments":{}}}` against an empty
registry. -/
theorem C1_rpc_unknown_tool_witness :
    sse_call_tool [] (.ok (.obj [("jsonrpc", .str "2.0"), ("id", .num 1),
        ("method", .str "tools/call"),
        ("params", .obj [("name", .str "nonexistent"),
                         ("arguments", .obj [])])])) =
      ⟨200, rpc_err ((jget [("jsonrpc", Json.str "2.0"), ("id", Json.num 1),
          ("method", Json.str "tools/call"),
          ("params", Json.obj [("name", Json.str "nonexistent"),
                               ("arguments", Json.obj [])])] "id").getD .null)
        (-32601)
        ("Tool not found: " ++
          pyStrOpt (jget [("name", Json.str "nonexistent"),
                          ("arguments", Json.obj [])] "name"))⟩ :=
  (C1_rpc_unknown_tool []
    [("jsonrpc", .str "2.0"), ("id", .num 1), ("method", .str "tools/call"),
     ("params", .obj [("name", .str "nonexistent"), ("arguments", .obj [])])]
    [("name", .str "nonexistent"), ("arguments", .obj [])]
    rfl rfl rfl rfl).1

example :
    sse_call_tool [] (.ok (.obj [("jsonrpc", .str "2.0"), ("id", .num 1),
        ("method", .str "tools/call"),
        ("params", .obj [("name", .str "nonexistent"),
                         ("arguments", .obj [])])])) =
      ⟨200, .obj [("jsonrpc", .str "2.0"), ("id", .num 1),
        ("error", .obj [("code", .num (-32601)),
          ("message", .str "Tool not found: nonexistent")])]⟩ := rfl

/-! ## Claim C4 — unhandled exceptions on `POST /sse` -/

/-- Handler that raises, to exhibit an exception after a successfully
parsed `id`. -/
def c4_boom_handler : ToolHandler := ⟨"b", "demo", .obj [], fun _ => .error "boom"⟩

/-- Counterexample to C4 as stated: a request whose `id` (1) parses
successfully but whose handler raises is answered with the 500 `-32603`
envelope with the `id` field omitted — the code always omits `id` from
the error envelope, parsed or not. -/
theorem C4_counterexample :
    sse_call_tool [("b", c4_boom_handler)]
        (.ok (.obj [("jsonrpc", .str "2.0"), ("id", .num 1),
          ("method", .str "tools/call"),
          ("params", .obj [("name", .str "b"), ("arguments", .obj [])])])) =
      ⟨500, .obj [("jsonrpc", .str "2.0"),
        ("error", .obj [("code", .num (-32603)),
                        ("message", .str "boom")])]⟩ ∧
    jget [("jsonrpc", Json.str "2.0"), ("id", Json.num 1),
          ("method", Json.str "tools/call"),
          ("params", Json.obj [("name", Json.str "b"),
                               ("arguments", Json.obj [])])] "id" =
      some (.num 1) ∧
    jgetJson (Json.obj [("jsonrpc", .str "2.0"),
        ("error", .obj [("code", .num (-32603)),
                        ("message", .str "boom")])]) "id" = none :=
  ⟨rfl, rfl, rfl⟩

/-- C4 amended: any unhandled exception during the dispatch of
`POST /sse` (malformed body, handler raising, serialization failure) is
answered with HTTP 500 and a JSON-RPC error envelope of code `-32603`
whose message is the exception text; the `id` field is always omitted
from that envelope, even when an id was successfully parsed from the
body. -/
theorem C4_internal_error (reg : Registry) (request_body : Except String Json)
    (msg : String) (h : sse_try reg request_body = .error msg) :
    sse_call_tool reg request_body =
      ⟨500, .obj [("jsonrpc", .str "2.0"),
        ("error", .obj [("code", .num (-32603)),
                        ("message", .str msg)])]⟩ ∧
    jgetJson (Json.obj [("jsonrpc", .str "2.0"),
        ("error", .obj [("code", .num (-32603)),
                        ("message", .str msg)])]) "id" = none := by
  constructor
  · simp [sse_call_tool, h]
  · rfl

/-- Witness for C4 amended: a malformed body (`request.json()` raising). -/
theorem C4_internal_error_witness :
    sse_call_tool [] (.error "Expecting value: line 1 column 1 (char 0)") =
      ⟨500, .obj [("jsonrpc", .str "2.0"),
        ("error", .obj [("code", .num (-32603)),
          ("message",
           .str "Expecting value: line 1 column 1 (char 0)")])]⟩ :=
  (C4_internal_error [] (.error "Expecting value: line 1 column 1 (char 0)")
    "Expecting value: line 1 column 1 (char 0)" rfl).1

/-! ## Claim C5 — HTTP status for unknown tools on `POST /sse` -/

/-- Counterexample to C5 as stated: the fallback `{name, arguments}` form
naming an unregistered tool is NOT answered with HTTP 200 — the 404
`HTTPException` raised inside the `try` is swallowed by the endpoint's
catch-all and surfaces as HTTP 500 with code `-32603`. -/
theorem C5_counterexample :
    lookupTool [] "nonexistent" = none ∧
    sse_call_tool []
        (.ok (.obj [("name", .str "nonexistent"), ("arguments", .obj [])])) =
      ⟨500, .obj [("jsonrpc", .str "2.0"),
        ("error", .obj [("code", .num (-32603)),
          ("message", .str "404: Tool not found: nonexistent")])]⟩ :=
  ⟨rfl, rfl⟩

/-- C5 amended: an unregistered (string-named) tool gets HTTP 200 with a
JSON-RPC `-32601` error envelope in the JSON-RPC 2.0 envelope form, but
in the fallback `{name, arguments}` form the raised
`HTTPException(404, ...)` is caught by the endpoint's catch-all and
answered as HTTP 500 with a `-32603` envelope. -/
theorem C5_unknown_tool_status (reg : Registry) :
    (∀ (kvs ps : List (String × Json)) (n : String),
      isRpc2 kvs = true →
      (jget kvs "method").getD (.str "") = .str "tools/call" →
      (jget kvs "params").getD (.obj []) = .obj ps →
      jget ps "name" = some (.str n) →
      lookupTool reg n = none →
      sse_call_tool reg (.ok (.obj kvs)) =
        ⟨200, rpc_err ((jget kvs "id").getD .null) (-32601)
          ("Tool not found: " ++ n)⟩) ∧
    (∀ (kvs : List (String × Json)) (n : String),
      isRpc2 kvs = false →
      jget kvs "name" = some (.str n) →
      lookupTool reg n = none →
      sse_call_tool reg (.ok (.obj kvs)) =
        ⟨500, .obj [("jsonrpc", .str "2.0"),
          ("error", .obj [("code", .num (-32603)),
            ("message", .str ("404: Tool not found: " ++ n))])]⟩) := by
  constructor
  · intro kvs ps n hrpc hm hp hn hlook
    simp [sse_call_tool, sse_try, sse_dispatch, hrpc, sse_rpc, hm, hp, hn,
      memberCheck, hlook, strEq, pyStrOpt, pyStr]
  · intro kvs n hrpc hn hlook
    simp [sse_call_tool, sse_try, sse_dispatch, hrpc, sse_fallback, hn,
      memberCheck, hlook, pyStrOpt, pyStr]

/-- Witness for C5 amended: the same unregistered name through both
forms against the demo registry. -/
theorem C5_unknown_tool_status_witness :
    sse_call_tool demo_registry
        (.ok (.obj [("jsonrpc", .str "2.0"), ("id", .num 9),
          ("method", .str "tools/call"),
          ("params", .obj [("name", .str "ghost")])])) =
      ⟨200, rpc_err ((jget [("jsonrpc", Json.str "2.0"), ("id", Json.num 9),
          ("method", Json.str "tools/call"),
          ("params", Json.obj [("name", Json.str "ghost")])] "id").getD .null)
        (-32601) ("Tool not found: " ++ "ghost")⟩ ∧
    sse_call_tool demo_registry (.ok (.obj [("name", .str "ghost")])) =
      ⟨500, .obj [("jsonrpc", .str "2.0"),
        ("error", .obj [("code", .num (-32603)),
          ("message", .str ("404: Tool not found: " ++ "ghost"))])]⟩ :=
  ⟨(C5_unknown_tool_status demo_registry).1
      [("jsonrpc", .str "2.0"), ("id", .num 9),
       ("method", .str "tools/call"),
       ("params", .obj [("name", .str "ghost")])]
      [("name", .str "ghost")] "ghost" rfl rfl rfl rfl rfl,
   (C5_unknown_tool_status demo_registry).2
      [("name", .str "ghost")] "ghost" rfl rfl rfl⟩

/-! ## Claim C6 — JSON-RPC id echo -/

lemma sse_rpc_ok_id (reg : Registry) (kvs : List (String × Json)) (content : Json)
    (hok : sse_rpc reg kvs = .ok content) :
    jgetJson content "id" = some ((jget kvs "id").getD .null) := by
  simp only [sse_rpc] at hok
  split at hok
  · injection hok with h
    subst h
    rfl
  · split at hok
    · split at hok
      · split at hok
        · exact absurd hok (by simp)
        · injection hok with h
          subst h
          rfl
        · split at hok
          · exact absurd hok (by simp)
          · split at hok
            · exact absurd hok (by simp)
            · injection hok with h
              subst h
              rfl
      · exact absurd hok (by simp)
    · split at hok
      · injection hok with h
        subst h
        rfl
      · injection hok with h
        subst h
        rfl

/-- C6: every JSON-RPC 2.0 request on `POST /sse` that is answered
without an unhandled exception — `tools/list`, `tools/call` whether the
tool exists or not, `initialize`, and unknown methods — carries in its
response exactly the `id` of the request (including `id = null`); the id
is never regenerated. -/
theorem C6_id_echo (reg : Registry) (kvs : List (String × Json))
    (v content : Json)
    (hrpc : isRpc2 kvs = true)
    (hid : jget kvs "id" = some v)
    (hok : sse_dispatch reg (.obj kvs) = .ok content) :
    sse_call_tool reg (.ok (.obj kvs)) = ⟨200, content⟩ ∧
    jgetJson content "id" = some v := by
  have hrpcok : sse_rpc reg kvs = .ok content := by
    simpa [sse_dispatch, hrpc] using hok
  constructor
  · simp [sse_call_tool, sse_try, sse_dispatch, hrpc, hrpcok]
  · have h := sse_rpc_ok_id reg kvs content hrpcok
    rw [hid] at h
    simpa using h

/-- Witness for C6: the spec's `initialize` scenario with `id = 2`. -/
theorem C6_id_echo_witness :
    sse_call_tool [] (.ok (.obj [("jsonrpc", .str "2.0"), ("id", .num 2),
        ("method", .str "initialize")])) =
      ⟨200, rpc_ok (.num 2) initialize_result⟩ ∧
    jgetJson (rpc_ok (.num 2) initialize_result) "id" = some (.num 2) :=
  C6_id_echo [] [("jsonrpc", .str "2.0"), ("id", .num 2),
    ("method", .str "initialize")] (.num 2) (rpc_ok (.num 2) initialize_result)
    rfl rfl rfl

example :
    sse_call_tool [] (.ok (.obj [("jsonrpc", .str "2.0"), ("id", .null),
        ("method", .str "bogus")])) =
      ⟨200, rpc_err .null (-32601) "Method not found: bogus"⟩ := rfl

example :
    sse_call_tool [] (.ok (.obj [("jsonrpc", .str "2.0"), ("id", .str "req-7"),
        ("method", .str "tools/list")])) =
      ⟨200, rpc_ok (.str "req-7") (.obj [("tools", .arr [])])⟩ := rfl

/-! ## Claim C8 — shape of a successful JSON-RPC `tools/call` result -/

/-- The text value claim C8 specifies for a canonical result that is a
string, object or array: the string itself unquoted, or the
JSON-encoding of the object/array.  (Stated from the spec's words, to be
compared with the code's `sse_text_field`.) -/
def spec_text_of_canonical : Json → Json
  | .str s => .str s
  | j => .str (json_dumps j)

/-- C8: every successful JSON-RPC 2.0 `tools/call` responds with a
`result` whose `content` is an array of exactly one item of type
`"text"`, whose `text` is the JSON-encoding of the canonical result when
that result is an object or array, and the canonical string itself,
unquoted, when it is a string. -/
theorem C8_rpc_call_success (reg : Registry) (kvs ps : List (String × Json))
    (handler : ToolHandler) (n : String) (result : List ContentItem) (j : Json)
    (hrpc : isRpc2 kvs = true)
    (hm : (jget kvs "method").getD (.str "") = .str "tools/call")
    (hp : (jget kvs "params").getD (.obj []) = .obj ps)
    (hn : jget ps "name" = some (.str n))
    (hlook : lookupTool reg n = some handler)
    (hrun : handler.run_tool ((jget ps "arguments").getD (.obj [])) = .ok result)
    (hnorm : normalize_sse result = .jsonVal j)
    (hj : (∃ s, j = .str s) ∨ (∃ kv, j = .obj kv) ∨ (∃ xs, j = .arr xs)) :
    sse_call_tool reg (.ok (.obj kvs)) =
      ⟨200, rpc_ok ((jget kvs "id").getD .null)
        (.obj [("content", .arr [.obj [("type", .str "text"),
          ("text", spec_text_of_canonical j)]])])⟩ := by
  rcases hj with ⟨s, rfl⟩ | ⟨kv, rfl⟩ | ⟨xs, rfl⟩ <;>
    simp [sse_call_tool, sse_try, sse_dispatch, hrpc, sse_rpc, hm, hp, hn,
      memberCheck, hlook, hrun, hnorm, sse_text_field, spec_text_of_canonical,
      strEq]

/-- Witness for C8: the vault-listing scenario; the handler's text parses
to a JSON array, so the text field is its JSON-encoding. -/
theorem C8_rpc_call_success_witness :
    sse_call_tool demo_registry
        (.ok (.obj [("jsonrpc", .str "2.0"), ("id", .num 4),
          ("method", .str "tools/call"),
          ("params", .obj [("name", .str "obsidian_list_files_in_vault"),
                           ("arguments", .obj [])])])) =
      ⟨200, rpc_ok ((jget [("jsonrpc", Json.str "2.0"), ("id", Json.num 4),
          ("method", Json.str "tools/call"),
          ("params", Json.obj [("name", Json.str "obsidian_list_files_in_vault"),
                               ("arguments", Json.obj [])])] "id").getD .null)
        (.obj [("content", .arr [.obj [("type", .str "text"),
          ("text", spec_text_of_canonical
            (.arr [.str "a.md", .str "b.md"]))]])])⟩ :=
  C8_rpc_call_success demo_registry
    [("jsonrpc", .str "2.0"), ("id", .num 4), ("method", .str "tools/call"),
     ("params", .obj [("name", .str "obsidian_list_files_in_vault"),
                      ("arguments", .obj [])])]
    [("name", .str "obsidian_list_files_in_vault"), ("arguments", .obj [])]
    demo_vault_handler "obsidian_list_files_in_vault"
    [.textItem "[\"a.md\", \"b.md\"]"] (.arr [.str "a.md", .str "b.md"])
    rfl rfl rfl rfl rfl rfl rfl
    (Or.inr (Or.inr ⟨[.str "a.md", .str "b.md"], rfl⟩))

example :
    spec_text_of_canonical (.arr [.str "a.md", .str "b.md"]) =
      .str "[\"a.md\", \"b.md\"]" := rfl

/-! ## Claim C10 — non-string text fields -/

/-- Handler returning the empty sequence (canonical result = raw empty
sequence). -/
def c10_empty_handler : ToolHandler := ⟨"e", "demo", .obj [], fun _ => .ok []⟩

/-- Handler whose text parses to the JSON number 42. -/
def c10_num_handler : ToolHandler := ⟨"n", "demo", .obj [], fun _ => .ok [.textItem "42"]⟩

/-- Counterexample to C10 as stated: when the canonical result is the
raw handler sequence (here empty), the `text` field does not hold that
sequence directly — a Python list passes the
`isinstance(result_data, (dict, list))` test, so it is JSON-encoded, and
the `text` field is the string `"[]"`, not the raw sequence value. -/
theorem C10_counterexample :
    normalize_sse [] = .rawItems [] ∧
    sse_call_tool [("e", c10_empty_handler)]
        (.ok (.obj [("jsonrpc", .str "2.0"), ("id", .num 3),
          ("method", .str "tools/call"),
          ("params", .obj [("name", .str "e")])])) =
      ⟨200, rpc_ok (.num 3) (.obj [("content", .arr [.obj
        [("type", .str "text"), ("text", .str "[]")]])])⟩ ∧
    (Json.str "[]" = Json.arr [] → False) :=
  ⟨rfl, rfl, fun h => Json.noConfusion h⟩

/-- C10 amended: when the canonical result of a successful JSON-RPC
`tools/call` is a parsed JSON primitive (number, boolean or null), the
`text` field holds that value directly — so `text` is not guaranteed to
be a string; but the raw handler sequence, being a Python list, is
instead JSON-encoded: the empty sequence yields the text string `"[]"`,
and a non-empty raw sequence fails serialization and is answered as
HTTP 500. -/
theorem C10_text_field_shapes (reg : Registry) (kvs ps : List (String × Json))
    (handler : ToolHandler) (n : String) (result : List ContentItem)
    (hrpc : isRpc2 kvs = true)
    (hm : (jget kvs "method").getD (.str "") = .str "tools/call")
    (hp : (jget kvs "params").getD (.obj []) = .obj ps)
    (hn : jget ps "name" = some (.str n))
    (hlook : lookupTool reg n = some handler)
    (hrun : handler.run_tool ((jget ps "arguments").getD (.obj [])) =
      .ok result) :
    (∀ j, normalize_sse result = .jsonVal j →
      (j = .null ∨ (∃ b, j = .bool b) ∨ (∃ i, j = .num i)) →
      sse_call_tool reg (.ok (.obj kvs)) =
        ⟨200, rpc_ok ((jget kvs "id").getD .null)
          (.obj [("content", .arr [.obj [("type", .str "text"),
            ("text", j)]])])⟩) ∧
    (normalize_sse result = .rawItems [] →
      sse_call_tool reg (.ok (.obj kvs)) =
        ⟨200, rpc_ok ((jget kvs "id").getD .null)
          (.obj [("content", .arr [.obj [("type", .str "text"),
            ("text", .str "[]")]])])⟩) ∧
    (∀ it its, normalize_sse result = .rawItems (it :: its) →
      sse_call_tool reg (.ok (.obj kvs)) =
        ⟨500, .obj [("jsonrpc", .str "2.0"),
          ("error", .obj [("code", .num (-32603)),
            ("message", .str ("Object of type " ++ it.typeName ++
              " is not JSON serializable"))])]⟩) := by
  refine ⟨?_, ?_, ?_⟩
  · intro j hnorm hj
    rcases hj with rfl | ⟨b, rfl⟩ | ⟨i, rfl⟩ <;>
      simp [sse_call_tool, sse_try, sse_dispatch, hrpc, sse_rpc, hm, hp, hn,
        memberCheck, hlook, hrun, hnorm, sse_text_field, strEq]
  · intro hnorm
    simp [sse_call_tool, sse_try, sse_dispatch, hrpc, sse_rpc, hm, hp, hn,
      memberCheck, hlook, hrun, hnorm, sse_text_field, strEq]
  · intro it its hnorm
    simp [sse_call_tool, sse_try, sse_dispatch, hrpc, sse_rpc, hm, hp, hn,
      memberCheck, hlook, hrun, hnorm, sse_text_field, strEq]

/-- Witness for C10 amended: a handler whose text parses to the number
42; the `text` field of the response is the number itself, not a
string. -/
theorem C10_text_field_shapes_witness :
    sse_call_tool [("n", c10_num_handler)]
        (.ok (.obj [("jsonrpc", .str "2.0"), ("id", .num 5),
          ("method", .str "tools/call"),
          ("params", .obj [("name", .str "n")])])) =
      ⟨200, rpc_ok ((jget [("jsonrpc", Json.str "2.0"), ("id", Json.num 5),
          ("method", Json.str "tools/call"),
          ("params", Json.obj [("name", Json.str "n")])] "id").getD .null)
        (.obj [("content", .arr [.obj [("type", .str "text"),
          ("text", .num 42)]])])⟩ :=
  (C10_text_field_shapes [("n", c10_num_handler)]
    [("jsonrpc", .str "2.0"), ("id", .num 5), ("method", .str "tools/call"),
     ("params", .obj [("name", .str "n")])]
    [("name", .str "n")] c10_num_handler "n" [.textItem "42"]
    rfl rfl rfl rfl rfl rfl).1 (.num 42) rfl (Or.inr (Or.inr ⟨42, rfl⟩))
